import Mathlib

/-!
Shallow embedding of the iab-docs-bot worker service
(src/services/worker/src/index.ts and src/services/worker/src/mcp.ts).

External collaborators (Firestore, the Slack Web API, the Gemini chat
endpoint, the MCP server) are modelled as oracles carried in explicit
environment records; each embedded function threads the mutable module
state explicitly and records the externally visible effects (replies
posted, documents written, model messages sent, tool invocations made)
in a trace, so that the theorems can speak about side effects.
-/

/-! ## Idempotency ledger (index.ts, isEventProcessed / markEventProcessed)

Firestore documents in the `processed_events` collection.  The
`processed_at` wall-clock timestamp field is elided: no claim concerns
it.  A backing-store failure is modelled by the `readFails` /
`writeFails` flags of the store; the raw firestore primitives return
`Except` (they can raise), the worker's wrappers catch. -/

structure Marker where
  channel : String
  ts : String
deriving DecidableEq, Repr

structure FS where
  docs : List (String × Marker)
  readFails : Bool
  writeFails : Bool
deriving DecidableEq, Repr

/-- Raw `firestore...doc(eventId).get()` followed by `doc.exists`:
either raises or reports whether the document exists. -/
def firestoreGet (fs : FS) (eventId : String) : Except String Bool :=
  if fs.readFails then .error "Firestore read error"
  else .ok ((fs.docs.lookup eventId).isSome)

/-- Raw `firestore...doc(eventId).set({...})`: either raises or
overwrites the document. -/
def firestoreSet (fs : FS) (eventId : String) (m : Marker) : Except String FS :=
  if fs.writeFails then .error "Firestore write error"
  else .ok { fs with docs := (eventId, m) :: fs.docs.filter (fun p => p.1 ≠ eventId) }

/-- `isEventProcessed` (index.ts lines 42-50): try/catch around the
firestore read; on error logs and returns `false`. -/
def isEventProcessed (fs : FS) (eventId : String) : Bool :=
  match firestoreGet fs eventId with
  | .ok b => b
  | .error _ => false

/-- `markEventProcessed` (index.ts lines 55-65): try/catch around the
firestore write; on error logs and leaves the store unchanged.  Total:
it never propagates the failure. -/
def markEventProcessed (fs : FS) (eventId channel ts : String) : FS :=
  match firestoreSet fs eventId ⟨channel, ts⟩ with
  | .ok fs2 => fs2
  | .error _ => fs

/-! ## Question extraction (index.ts line 112)

`event.text.replace(/<@[A-Z0-9]+>/g, '').trim()`.  The regex matches
`<@`, then a maximal nonempty run of `[A-Z0-9]`, then `>`; since `>` is
not in the character class, backtracking cannot produce any other
match, so the JS semantics is exactly: at each position, remove
`<@` ++ run ++ `>` when the maximal run is nonempty and followed by
`>`, otherwise keep the character and move on. -/

def isIdChar (c : Char) : Bool :=
  (decide ('A' ≤ c) && decide (c ≤ 'Z')) || (decide ('0' ≤ c) && decide (c ≤ '9'))

/-- One left-to-right scan of the regex replacement, with explicit fuel
so the recursion is structural (each step consumes at least one input
character, so `l.length` fuel always suffices; the `0` case is never
reached from `stripMentions`). -/
def stripFuel : Nat → List Char → List Char
  | 0, l => l
  | _ + 1, [] => []
  | fuel + 1, '<' :: '@' :: rest =>
    if (rest.takeWhile isIdChar).isEmpty then '<' :: '@' :: stripFuel fuel rest
    else
      match rest.dropWhile isIdChar with
      | '>' :: tail => stripFuel fuel tail
      | _ => '<' :: '@' :: stripFuel fuel rest
  | fuel + 1, c :: cs => c :: stripFuel fuel cs

def stripAux (l : List Char) : List Char := stripFuel l.length l

/-- The mention-stripping step of index.ts line 112. -/
def stripMentions (s : String) : String := ⟨stripAux s.data⟩

/-- JS `String.prototype.trim` removes leading and trailing whitespace;
modelled with `Char.isWhitespace` (space, tab, CR, LF — the whitespace
actually occurring in chat text). -/
def trimChars (l : List Char) : List Char :=
  ((l.dropWhile Char.isWhitespace).reverse.dropWhile Char.isWhitespace).reverse

/-- The full question extraction of index.ts line 112
(`event.text.replace(/<@[A-Z0-9]+>/g, '').trim()`). -/
def extractQuestion (s : String) : String := ⟨trimChars (stripAux s.data)⟩

example : extractQuestion "<@U123ABC> OpenRTBとは？" = "OpenRTBとは？" := by decide
example : extractQuestion "  <@BOT1> " = "" := by decide
example : extractQuestion "<@bot> hi" = "<@bot> hi" := by decide

/-! ## Answer Agent (index.ts lines 239-354, the tool-calling
`generateAnswer`)

The Gemini chat and the MCP tool bridge are oracles:
`modelResponses k` is the model's reply to the `k`-th
`chat.sendMessage` of the run (`k = 0` is the reply to the question),
or an exception; `mcpResults k` is the outcome of the `k`-th
`callMcpTool` invocation of the run, or a thrown transport error.
The run statistics record every externally visible action. -/

structure FunctionCall where
  name : String
  args : String
deriving DecidableEq, Repr

structure ModelResponse where
  functionCalls : List FunctionCall
  text : String
deriving DecidableEq, Repr

/-- The normalized result of `callMcpTool` (mcp.ts lines 101-104). -/
structure ToolCallResult where
  content : String
  isError : Option Bool
deriving DecidableEq, Repr

structure GenerateAnswerResult where
  answer : String
  success : Bool
deriving DecidableEq, Repr

/-- One entry of the `parts` array sent back to the model
(index.ts lines 321-334): a `functionResponse` carrying either the
tool result content or the caught error message. -/
inductive FunctionResponsePart where
  | ok (name : String) (content : String)
  | err (name : String) (message : String)
deriving DecidableEq, Repr

def partName : FunctionResponsePart → String
  | .ok n _ => n
  | .err n _ => n

def FunctionResponsePart.isErr : FunctionResponsePart → Bool
  | .ok _ _ => false
  | .err _ _ => true

/-- One `ExecutingTools` turn: the batch of calls the model requested,
the index of the first `callMcpTool` invocation of the batch, and the
full `parts` array sent back to the model in the single next
`chat.sendMessage`. -/
structure TurnRecord where
  requested : List FunctionCall
  mcpStart : Nat
  forwarded : List FunctionResponsePart
deriving DecidableEq, Repr

structure AgentStats where
  modelSends : Nat
  mcpCalls : Nat
  catalogFetches : Nat
  batches : List TurnRecord
  cycles : Nat
deriving DecidableEq, Repr

def emptyStats : AgentStats :=
  { modelSends := 0, mcpCalls := 0, catalogFetches := 0, batches := [], cycles := 0 }

structure AgentEnv where
  apiKey : String
  geminiTools : Except String (List String)
  modelResponses : Nat → Except String ModelResponse
  mcpResults : Nat → Except String ToolCallResult

/-- The `for (const call of functionCalls)` body (index.ts lines
318-336): one `callMcpTool` invocation per requested call — the `k`-th
overall invocation of the run consumes `mcpResults k` — a success
pushes a content part, a caught exception pushes an error part.
Returns the `parts` array and the next free invocation index. -/
def execTools (mcpResults : Nat → Except String ToolCallResult) :
    Nat → List FunctionCall → List FunctionResponsePart × Nat
  | k, [] => ([], k)
  | k, c :: rest =>
    let part : FunctionResponsePart :=
      match mcpResults k with
      | .ok r => .ok c.name r.content
      | .error e => .err c.name e
    let (ps, k2) := execTools mcpResults (k + 1) rest
    (part :: ps, k2)

def MAX_ITERATIONS : Nat := 10

/-- The `while (iteration < MAX_ITERATIONS)` loop (index.ts lines
306-345), with `fuel = MAX_ITERATIONS - iteration` so the recursion is
structural.  `current` is the latest model response; fuel `0` is the
loop exit at the iteration cap, where the answer is the text of the
latest response.  A `none` first component models `chat.sendMessage`
throwing (caught by the surrounding try). -/
def agentLoop (env : AgentEnv) : Nat → ModelResponse → AgentStats → Option String × AgentStats
  | 0, current, st => (some current.text, st)
  | fuel + 1, current, st =>
    if 0 < current.functionCalls.length then
      let ex := execTools env.mcpResults st.mcpCalls current.functionCalls
      let st2 : AgentStats :=
        { st with
          mcpCalls := ex.2
          batches := st.batches ++ [⟨current.functionCalls, st.mcpCalls, ex.1⟩]
          cycles := st.cycles + 1 }
      match env.modelResponses st2.modelSends with
      | .error _ => (none, { st2 with modelSends := st2.modelSends + 1 })
      | .ok next => agentLoop env fuel next { st2 with modelSends := st2.modelSends + 1 }
    else
      (some current.text, st)

def configErrorAnswer : String := "設定エラー: GEMINI_API_KEYが設定されていません"

def agentErrorAnswer : String := "回答の生成中にエラーが発生しました。"

/-- The tool-calling `generateAnswer` (index.ts lines 281-354).  The
`question` only feeds the first `chat.sendMessage`, whose reply the
oracle gives as `modelResponses 0`. -/
def generateAnswerAgent (env : AgentEnv) (_question : String) :
    GenerateAnswerResult × AgentStats :=
  if env.apiKey = "" then
    ({ answer := configErrorAnswer, success := false }, emptyStats)
  else
    match env.geminiTools with
    | .error _ =>
      ({ answer := agentErrorAnswer, success := false },
       { emptyStats with catalogFetches := 1 })
    | .ok _ =>
      match env.modelResponses 0 with
      | .error _ =>
        ({ answer := agentErrorAnswer, success := false },
         { emptyStats with catalogFetches := 1, modelSends := 1 })
      | .ok first =>
        match agentLoop env MAX_ITERATIONS first
            { emptyStats with catalogFetches := 1, modelSends := 1 } with
        | (some ans, st) => ({ answer := ans, success := true }, st)
        | (none, st) => ({ answer := agentErrorAnswer, success := false }, st)

/-! ## Single-shot `generateAnswer` (index.ts lines 193-237)

The earlier variant that receives pre-fetched passages; `sendResult`
is the oracle for its one `chat.sendMessage` (the response text, or a
thrown error).  The second component of the result counts model
calls. -/

structure SingleShotEnv where
  apiKey : String
  sendResult : Except String String

def singleShotErrorAnswer : String := "回答の生成中にエラーが発生しました"

def emptyAnswerFallback : String := "回答を生成できませんでした"

def generateAnswerSingle (env : SingleShotEnv) (_question _passages : String) :
    GenerateAnswerResult × Nat :=
  if env.apiKey = "" then
    ({ answer := configErrorAnswer, success := false }, 0)
  else
    match env.sendResult with
    | .error _ => ({ answer := singleShotErrorAnswer, success := false }, 1)
    | .ok t =>
      if t = "" then ({ answer := emptyAnswerFallback, success := false }, 1)
      else ({ answer := t, success := true }, 1)

/-! ## MCP bridge (mcp.ts)

Module state: the lazily created `client`.  Oracles:
`connectResult k` is the outcome of the `k`-th `client.connect`
attempt of the process, `listToolsResult k` the outcome of the `k`-th
`listTools` network fetch, `callToolResult k` the outcome of the
`k`-th `client.callTool` network invocation.  In mcp.ts the module
variable `client` is assigned *before* `connect` is awaited, so a
failed connect still leaves it non-null; the model mirrors that.
The JSON-schema conversion (`convertSchema`) only reshapes the
declaration payload and no claim concerns it, so a tool declaration is
represented by its `name` and defaulted `description` and the
converted parameter schema is carried opaquely by the oracle. -/

structure ToolSpec where
  name : String
  description : Option String
deriving DecidableEq, Repr

structure FunctionDeclaration where
  name : String
  description : String
deriving DecidableEq, Repr

/-- One MCP content fragment: `(isText, payload)` for
`{type: 'text', text}` vs any other fragment kind. -/
structure CallToolRaw where
  fragments : List (Bool × String)
  isError : Option Bool
deriving DecidableEq, Repr

structure McpState where
  client : Option Unit
  connectCount : Nat
  listToolsCount : Nat
  callToolCount : Nat
deriving DecidableEq, Repr

def initialMcpState : McpState :=
  { client := none, connectCount := 0, listToolsCount := 0, callToolCount := 0 }

structure McpEnv where
  connectResult : Nat → Except String Unit
  listToolsResult : Nat → Except String (List ToolSpec)
  callToolResult : Nat → Except String CallToolRaw
  stringifyContent : List (Bool × String) → String

/-- `getClient` (mcp.ts lines 9-21): returns the cached client if any;
otherwise assigns a fresh client to the module variable and awaits
`connect`, propagating a connect failure. -/
def getClient (env : McpEnv) (st : McpState) : Except String Unit × McpState :=
  match st.client with
  | some c => (.ok c, st)
  | none =>
    let st1 := { st with client := some (), connectCount := st.connectCount + 1 }
    match env.connectResult st.connectCount with
    | .error e => (.error e, st1)
    | .ok _ => (.ok (), st1)

/-- `getGeminiTools` (mcp.ts lines 70-81): gets the (cached) client,
then performs a `listTools` fetch — on every call, there is no catalog
cache — and maps the fetched tools to Gemini function declarations. -/
def getGeminiTools (env : McpEnv) (st : McpState) :
    Except String (List FunctionDeclaration) × McpState :=
  match getClient env st with
  | (.error e, st1) => (.error e, st1)
  | (.ok _, st1) =>
    match env.listToolsResult st1.listToolsCount with
    | .error e => (.error e, { st1 with listToolsCount := st1.listToolsCount + 1 })
    | .ok tools =>
      (.ok (tools.map fun t => ⟨t.name, t.description.getD ""⟩),
       { st1 with listToolsCount := st1.listToolsCount + 1 })

/-- `callMcpTool` (mcp.ts lines 86-105): gets the (cached) client,
performs exactly one `callTool` network invocation — there is no
retry — and normalizes the result: the text fragments joined by blank
lines, falling back to the JSON rendering of the whole content list
when that is empty (`textContent || JSON.stringify(result.content)`). -/
def callMcpTool (env : McpEnv) (st : McpState) (_name _args : String) :
    Except String ToolCallResult × McpState :=
  match getClient env st with
  | (.error e, st1) => (.error e, st1)
  | (.ok _, st1) =>
    let st2 := { st1 with callToolCount := st1.callToolCount + 1 }
    match env.callToolResult st1.callToolCount with
    | .error e => (.error e, st2)
    | .ok raw =>
      let textContent :=
        String.intercalate "\n\n" ((raw.fragments.filter (fun f => f.1)).map (fun f => f.2))
      let content := if textContent = "" then env.stringifyContent raw.fragments else textContent
      (.ok { content := content, isError := raw.isError }, st2)

/-! ## Delivery Handler (index.ts lines 81-139, `POST /pubsub/push`)

Modelled from the decoded `SlackEvent` onward; the malformed-payload
400 paths (lines 84-99) precede every step the claims concern.
`slackOk` tells whether the single possible `chat.postMessage` of the
invocation succeeds; on `false` it throws and control reaches the
catch block.  The trace records the Firestore state, the successfully
posted replies `(channel, thread_ts, text)`, the number of post
attempts, and the statistics of the agent run when one happened. -/

structure SlackEvent where
  event_id : String
  event_time : Nat
  team_id : String
  channel : String
  user : String
  text : String
  ts : String
  thread_ts : String
deriving DecidableEq, Repr

inductive HandlerOutcome where
  | ack
  | retry
deriving DecidableEq, Repr

structure HandlerTrace where
  fs : FS
  replies : List (String × String × String)
  slackAttempts : Nat
  agentRun : Option AgentStats
deriving DecidableEq, Repr

structure HandlerEnv where
  fs : FS
  slackOk : Bool
  agent : AgentEnv

def helpMessage : String := "質問を入力してください。例: `@bot OpenRTBとは？`"

/-- The `POST /pubsub/push` handler body from the duplicate check on
(index.ts lines 104-138). -/
def handleEvent (env : HandlerEnv) (event : SlackEvent) : HandlerOutcome × HandlerTrace :=
  let tr0 : HandlerTrace := { fs := env.fs, replies := [], slackAttempts := 0, agentRun := none }
  if isEventProcessed env.fs event.event_id then
    (.ack, tr0)
  else
    let question := extractQuestion event.text
    if question = "" then
      if env.slackOk then
        let fs1 := markEventProcessed env.fs event.event_id event.channel event.ts
        (.ack, { fs := fs1, replies := [(event.channel, event.thread_ts, helpMessage)],
                 slackAttempts := 1, agentRun := none })
      else
        (.retry, { tr0 with slackAttempts := 1 })
    else
      let g := generateAnswerAgent env.agent question
      let replyText := g.1.answer
      if env.slackOk then
        let fs1 := markEventProcessed env.fs event.event_id event.channel event.ts
        (.ack, { fs := fs1, replies := [(event.channel, event.thread_ts, replyText)],
                 slackAttempts := 1, agentRun := some g.2 })
      else
        (.retry, { tr0 with slackAttempts := 1, agentRun := some g.2 })

/-! ## Fixtures for witnesses -/

def simpleAgentEnv : AgentEnv :=
  { apiKey := "k", geminiTools := .ok ["search"],
    modelResponses := fun _ => .ok ⟨[], "answer text"⟩,
    mcpResults := fun _ => .ok ⟨"doc", none⟩ }

def freshFS : FS := ⟨[], false, false⟩

def dupFS : FS := ⟨[("E1", ⟨"C1", "100.1"⟩)], false, false⟩

def brokenFS : FS := ⟨[], true, true⟩

def evDup : SlackEvent := ⟨"E1", 0, "T", "C1", "U1", "<@U0BOT> hello", "100.1", "100.1"⟩

def evEmpty : SlackEvent := ⟨"E2", 0, "T", "C1", "U1", "<@U0BOT> ", "100.2", "100.2"⟩

def evAsk : SlackEvent := ⟨"E3", 0, "T", "C1", "U1", "<@U0BOT> what is openrtb", "100.3", "100.3"⟩

def dupEnv : HandlerEnv := ⟨dupFS, true, simpleAgentEnv⟩

def freshEnv : HandlerEnv := ⟨freshFS, true, simpleAgentEnv⟩

def failSinkEnv : HandlerEnv := ⟨freshFS, false, simpleAgentEnv⟩

/-! ## Claims about the Delivery Handler and the ledger -/

/-- Claim C1: when the ledger reports the eventId as already processed,
the handler acks immediately with no side effects — no reply, no agent
(hence no model or tool call), no marker write; and (the redelivery
consequence) once a marker has been written for an eventId, a
subsequent failure-free ledger check finds it, so an identical
redelivery short-circuits. -/
theorem c1_duplicate_delivery_acks (env : HandlerEnv) (ev : SlackEvent)
    (h : isEventProcessed env.fs ev.event_id = true) :
    handleEvent env ev =
      (.ack, { fs := env.fs, replies := [], slackAttempts := 0, agentRun := none }) ∧
    (∀ fs eid c t, fs.readFails = false → fs.writeFails = false →
      isEventProcessed (markEventProcessed fs eid c t) eid = true) := by
  constructor
  · simp [handleEvent, h]
  · intro fs eid c t hr hw
    simp [isEventProcessed, markEventProcessed, firestoreGet, firestoreSet, hr, hw, List.lookup]

theorem c1_duplicate_delivery_acks_witness :
    handleEvent dupEnv evDup =
      (.ack, { fs := dupEnv.fs, replies := [], slackAttempts := 0, agentRun := none }) :=
  (c1_duplicate_delivery_acks dupEnv evDup (by decide)).1

/-- Claim C5: the processed marker is written only after the reply has
been dispatched: a retry outcome leaves the store unchanged, any store
change is accompanied by a dispatched reply, and a dispatch failure on
an unseen event yields retry with no marker written. -/
theorem c5_marker_only_after_dispatch (env : HandlerEnv) (ev : SlackEvent) :
    ((handleEvent env ev).1 = .retry → (handleEvent env ev).2.fs = env.fs) ∧
    ((handleEvent env ev).2.fs ≠ env.fs → (handleEvent env ev).2.replies ≠ []) ∧
    (env.slackOk = false → isEventProcessed env.fs ev.event_id = false →
      (handleEvent env ev).1 = .retry ∧ (handleEvent env ev).2.fs = env.fs) := by
  by_cases hd : isEventProcessed env.fs ev.event_id
  · simp [handleEvent, hd]
  · by_cases hq : extractQuestion ev.text = "" <;>
      by_cases hs : env.slackOk <;>
      simp [handleEvent, hd, hq, hs]

theorem c5_marker_only_after_dispatch_witness :
    (handleEvent failSinkEnv evAsk).1 = .retry ∧
    (handleEvent failSinkEnv evAsk).2.fs = failSinkEnv.fs :=
  (c5_marker_only_after_dispatch failSinkEnv evAsk).2.2 rfl (by decide)

/-- Claim C6: ledger operations never propagate backing-store failures:
a failing read makes `isEventProcessed` answer `false` (fail-open), and
a failing write makes `markEventProcessed` a logged no-op rather than
an error. -/
theorem c6_ledger_failures_swallowed (fs : FS) (eid c t : String) :
    (fs.readFails = true → isEventProcessed fs eid = false) ∧
    (fs.writeFails = true → markEventProcessed fs eid c t = fs) := by
  constructor
  · intro h; simp [isEventProcessed, firestoreGet, h]
  · intro h; simp [markEventProcessed, firestoreSet, h]

theorem c6_ledger_failures_swallowed_witness :
    isEventProcessed brokenFS "E9" = false ∧
    markEventProcessed brokenFS "E9" "C" "T" = brokenFS :=
  ⟨(c6_ledger_failures_swallowed brokenFS "E9" "C" "T").1 rfl,
   (c6_ledger_failures_swallowed brokenFS "E9" "C" "T").2 rfl⟩

/-- Claim C7: an unseen event whose text strips to the empty question
gets the fixed help message dispatched to its thread anchor, a
processed marker, and an ack, with the Answer Agent never invoked
(zero model calls and zero tool calls). -/
theorem c7_empty_question_short_circuit (env : HandlerEnv) (ev : SlackEvent)
    (h1 : isEventProcessed env.fs ev.event_id = false)
    (h2 : extractQuestion ev.text = "")
    (h3 : env.slackOk = true) :
    handleEvent env ev =
      (.ack, { fs := markEventProcessed env.fs ev.event_id ev.channel ev.ts,
               replies := [(ev.channel, ev.thread_ts, helpMessage)],
               slackAttempts := 1, agentRun := none }) := by
  simp [handleEvent, h1, h2, h3]

theorem c7_empty_question_short_circuit_witness :
    handleEvent freshEnv evEmpty =
      (.ack, { fs := markEventProcessed freshEnv.fs evEmpty.event_id evEmpty.channel evEmpty.ts,
               replies := [(evEmpty.channel, evEmpty.thread_ts, helpMessage)],
               slackAttempts := 1, agentRun := none }) :=
  c7_empty_question_short_circuit freshEnv evEmpty (by decide) (by decide) rfl

/-- Claim C10: with an empty GEMINI_API_KEY both `generateAnswer`
variants return the fixed configuration-error answer with
`success = false` and make no model call, no tool-catalog fetch and no
tool invocation. -/
theorem c10_missing_api_key_short_circuit (env : AgentEnv) (senv : SingleShotEnv)
    (q p : String) (h1 : env.apiKey = "") (h2 : senv.apiKey = "") :
    generateAnswerAgent env q = ({ answer := configErrorAnswer, success := false }, emptyStats) ∧
    generateAnswerSingle senv q p = ({ answer := configErrorAnswer, success := false }, 0) := by
  constructor
  · simp [generateAnswerAgent, h1]
  · simp [generateAnswerSingle, h2]

def noKeyAgentEnv : AgentEnv := ⟨"", .ok [], fun _ => .ok ⟨[], "t"⟩, fun _ => .ok ⟨"", none⟩⟩

def noKeySingleEnv : SingleShotEnv := ⟨"", .ok "t"⟩

theorem c10_missing_api_key_short_circuit_witness :
    generateAnswerAgent noKeyAgentEnv "q" =
      ({ answer := configErrorAnswer, success := false }, emptyStats) ∧
    generateAnswerSingle noKeySingleEnv "q" "p" =
      ({ answer := configErrorAnswer, success := false }, 0) :=
  c10_missing_api_key_short_circuit noKeyAgentEnv noKeySingleEnv "q" "p" rfl rfl

/-! ## Lemmas about the tool-execution loop -/

def exceptFailed {α : Type} : Except String α → Bool
  | .ok _ => false
  | .error _ => true

theorem execTools_map_name (m : Nat → Except String ToolCallResult) :
    ∀ (calls : List FunctionCall) (k : Nat),
      ((execTools m k calls).1).map partName = calls.map FunctionCall.name := by
  intro calls
  induction calls with
  | nil => intro k; simp [execTools]
  | cons c rest ih =>
    intro k
    cases hm : m k <;> simp [execTools, hm, partName, ih (k + 1)]

theorem execTools_next (m : Nat → Except String ToolCallResult) :
    ∀ (calls : List FunctionCall) (k : Nat),
      (execTools m k calls).2 = k + calls.length := by
  intro calls
  induction calls with
  | nil => intro k; simp [execTools]
  | cons c rest ih =>
    intro k
    have h := ih (k + 1)
    simp only [execTools, List.length_cons]
    rw [h]
    omega

theorem execTools_map_isErr (m : Nat → Except String ToolCallResult) :
    ∀ (calls : List FunctionCall) (k : Nat),
      ((execTools m k calls).1).map FunctionResponsePart.isErr =
        (List.range calls.length).map (fun i => exceptFailed (m (k + i))) := by
  intro calls
  induction calls with
  | nil => intro k; simp [execTools]
  | cons c rest ih =>
    intro k
    have hrange : (List.range (rest.length + 1)).map (fun i => exceptFailed (m (k + i))) =
        exceptFailed (m k) ::
          (List.range rest.length).map (fun i => exceptFailed (m (k + 1 + i))) := by
      rw [List.range_succ_eq_map]
      simp only [List.map_cons, List.map_map, Nat.add_zero]
      congr 1
      apply List.map_congr_left
      intro i _
      simp only [Function.comp_apply, Nat.succ_eq_add_one]
      have hx : k + 1 + i = k + (i + 1) := by omega
      rw [hx]
    simp only [List.length_cons]
    rw [hrange, ← ih (k + 1)]
    cases hm : m k <;> simp [execTools, hm, FunctionResponsePart.isErr, exceptFailed]

theorem execTools_length (m : Nat → Except String ToolCallResult)
    (calls : List FunctionCall) (k : Nat) :
    ((execTools m k calls).1).length = calls.length := by
  have h := execTools_map_name m calls k
  have h1 := congrArg List.length h
  simpa using h1

/-- A recorded turn is exactly the batch the loop body built from the
requested calls at its recorded invocation offset. -/
def goodTurn (env : AgentEnv) (t : TurnRecord) : Prop :=
  t.forwarded = (execTools env.mcpResults t.mcpStart t.requested).1

theorem agentLoop_batches_good (env : AgentEnv) :
    ∀ (fuel : Nat) (r : ModelResponse) (st : AgentStats),
      (∀ t ∈ st.batches, goodTurn env t) →
      ∀ t ∈ ((agentLoop env fuel r st).2).batches, goodTurn env t := by
  intro fuel
  induction fuel with
  | zero => intro r st h; simpa [agentLoop] using h
  | succ fuel ih =>
    intro r st h
    by_cases hc : 0 < r.functionCalls.length
    · simp only [agentLoop, hc, if_true]
      have hgood : ∀ t ∈ st.batches ++ [⟨r.functionCalls, st.mcpCalls,
          (execTools env.mcpResults st.mcpCalls r.functionCalls).1⟩], goodTurn env t := by
        intro t ht
        rcases List.mem_append.mp ht with h1 | h1
        · exact h t h1
        · rcases List.mem_singleton.mp h1 with rfl
          rfl
      cases hm : env.modelResponses (st.modelSends) with
      | error e => simpa using hgood
      | ok next => exact ih next _ hgood
    · simpa [agentLoop, hc] using h

/-- The run statistics of `generateAnswerAgent` come from one of its
four return sites: the key check, the catalog failure, the first-send
failure, or the loop (whatever way the loop ended). -/
theorem generateAnswerAgent_stats_cases (env : AgentEnv) (q : String) :
    (generateAnswerAgent env q).2 = emptyStats ∨
    (generateAnswerAgent env q).2 = { emptyStats with catalogFetches := 1 } ∨
    (generateAnswerAgent env q).2 = { emptyStats with catalogFetches := 1, modelSends := 1 } ∨
    ∃ first, (generateAnswerAgent env q).2 =
      (agentLoop env MAX_ITERATIONS first
        { emptyStats with catalogFetches := 1, modelSends := 1 }).2 := by
  unfold generateAnswerAgent
  split
  · exact Or.inl rfl
  · split
    · exact Or.inr (Or.inl rfl)
    · split
      · exact Or.inr (Or.inr (Or.inl rfl))
      · rename_i first hfirst
        split
        · rename_i ans st heq
          exact Or.inr (Or.inr (Or.inr ⟨first, by rw [heq]⟩))
        · rename_i st heq
          exact Or.inr (Or.inr (Or.inr ⟨first, by rw [heq]⟩))

theorem generateAnswerAgent_batches_good (env : AgentEnv) (q : String) :
    ∀ t ∈ ((generateAnswerAgent env q).2).batches, goodTurn env t := by
  rcases generateAnswerAgent_stats_cases env q with h | h | h | ⟨first, h⟩ <;> rw [h]
  · simp [emptyStats]
  · simp [emptyStats]
  · simp [emptyStats]
  · exact agentLoop_batches_good env MAX_ITERATIONS first _ (by simp [emptyStats])

/-! ## Claim C4 — batch atomicity -/

/-- Claim C4: every batch of `n` requested tool calls produces exactly
`n` result entries in the single next message sent back to the model —
in order, one per requested call, name preserved — and an entry is a
structured error exactly when the corresponding MCP invocation
(`mcpStart + i`-th of the run) failed; failures never shrink the
batch. -/
theorem c4_batch_atomicity (env : AgentEnv) (q : String) (t : TurnRecord)
    (ht : t ∈ ((generateAnswerAgent env q).2).batches) :
    t.forwarded.map partName = t.requested.map FunctionCall.name ∧
    t.forwarded.length = t.requested.length ∧
    t.forwarded.map FunctionResponsePart.isErr =
      (List.range t.requested.length).map
        (fun i => exceptFailed (env.mcpResults (t.mcpStart + i))) := by
  have hg := generateAnswerAgent_batches_good env q t ht
  rw [goodTurn] at hg
  rw [hg]
  exact ⟨execTools_map_name env.mcpResults t.requested t.mcpStart,
    execTools_length env.mcpResults t.requested t.mcpStart,
    execTools_map_isErr env.mcpResults t.requested t.mcpStart⟩

/-- A run whose first model turn requests three tool calls, of which
the second invocation throws, and whose second turn is a final text
answer. -/
def batchEnv : AgentEnv :=
  { apiKey := "k", geminiTools := .ok ["search"],
    modelResponses := fun k =>
      if k = 0 then .ok ⟨[⟨"a", "x"⟩, ⟨"b", "y"⟩, ⟨"c", "z"⟩], ""⟩
      else .ok ⟨[], "done"⟩,
    mcpResults := fun k =>
      if k = 1 then .error "boom" else .ok ⟨"doc", none⟩ }

def batchTurn : TurnRecord :=
  ⟨[⟨"a", "x"⟩, ⟨"b", "y"⟩, ⟨"c", "z"⟩], 0,
   [.ok "a" "doc", .err "b" "boom", .ok "c" "doc"]⟩

theorem c4_batch_atomicity_witness :
    batchTurn.forwarded.map partName = batchTurn.requested.map FunctionCall.name ∧
    batchTurn.forwarded.length = batchTurn.requested.length ∧
    batchTurn.forwarded.map FunctionResponsePart.isErr =
      (List.range batchTurn.requested.length).map
        (fun i => exceptFailed (batchEnv.mcpResults (batchTurn.mcpStart + i))) :=
  c4_batch_atomicity batchEnv "q" batchTurn (by decide)

/-! ## Claim C3 — bounded iteration -/

theorem agentLoop_cycles_le (env : AgentEnv) :
    ∀ (fuel : Nat) (r : ModelResponse) (st : AgentStats),
      ((agentLoop env fuel r st).2).cycles ≤ st.cycles + fuel := by
  intro fuel
  induction fuel with
  | zero => intro r st; simp [agentLoop]
  | succ fuel ih =>
    intro r st
    simp only [agentLoop]
    split
    · split
      · simp only []
        omega
      · refine le_trans (ih _ _) ?_
        show st.cycles + 1 + fuel ≤ st.cycles + (fuel + 1)
        omega
    · simp

/-- Claim C3: for every environment (hence every possible sequence of
model responses and tool outcomes) the tool-execution loop of
`generateAnswerAgent` performs at most `MAX_ITERATIONS = 10`
`AwaitingModel ⇄ ExecutingTools` cycles; termination is intrinsic,
since the loop is the structurally recursive `agentLoop` whose fuel is
exactly `MAX_ITERATIONS - iteration`. -/
theorem c3_loop_bounded (env : AgentEnv) (q : String) :
    ((generateAnswerAgent env q).2).cycles ≤ MAX_ITERATIONS := by
  rcases generateAnswerAgent_stats_cases env q with h | h | h | ⟨first, h⟩ <;> rw [h]
  · simp [emptyStats]
  · simp [emptyStats]
  · simp [emptyStats]
  · have hb := agentLoop_cycles_le env MAX_ITERATIONS first
      { emptyStats with catalogFetches := 1, modelSends := 1 }
    simpa [emptyStats] using hb

/-! ## Claim C2 — behavior at the iteration cap -/

/-- When the key is set, the catalog fetch succeeds and the first send
returns a response, `generateAnswerAgent` is exactly the loop's
outcome. -/
theorem generateAnswerAgent_run (env : AgentEnv) (q : String) (first : ModelResponse)
    (ts : List String) (hk : env.apiKey ≠ "") (hts : env.geminiTools = .ok ts)
    (h0 : env.modelResponses 0 = .ok first) :
    generateAnswerAgent env q =
      match agentLoop env MAX_ITERATIONS first
          { emptyStats with catalogFetches := 1, modelSends := 1 } with
      | (some ans, st) => ({ answer := ans, success := true }, st)
      | (none, st) => ({ answer := agentErrorAnswer, success := false }, st) := by
  unfold generateAnswerAgent
  rw [if_neg hk, hts, h0]

/-- Against a model that answers every send with a fresh batch of tool
calls, the loop consumes all its fuel and ends with the text of the
last response received. -/
theorem agentLoop_always_calls (env : AgentEnv) (f : Nat → ModelResponse)
    (hm : ∀ k, env.modelResponses k = .ok (f k))
    (hc : ∀ k, 0 < (f k).functionCalls.length) :
    ∀ (fuel s : Nat) (st : AgentStats), st.modelSends = s + 1 →
      (agentLoop env fuel (f s) st).1 = some ((f (s + fuel)).text) ∧
      ((agentLoop env fuel (f s) st).2).cycles = st.cycles + fuel := by
  intro fuel
  induction fuel with
  | zero => intro s st hs; simp [agentLoop]
  | succ fuel ih =>
    intro s st hs
    have hx : s + (fuel + 1) = (s + 1) + fuel := by omega
    simp only [agentLoop, if_pos (hc s), hs, hm (s + 1)]
    have h := ih (s + 1)
      { st with
        mcpCalls := (execTools env.mcpResults st.mcpCalls ((f s).functionCalls)).2,
        batches := st.batches ++ [⟨(f s).functionCalls, st.mcpCalls,
          (execTools env.mcpResults st.mcpCalls ((f s).functionCalls)).1⟩],
        cycles := st.cycles + 1,
        modelSends := s + 1 + 1 }
      rfl
    rw [hx]
    refine ⟨h.1, ?_⟩
    rw [h.2]
    show st.cycles + 1 + fuel = st.cycles + (fuel + 1)
    omega

/-- A model that requests one search tool call on every turn and never
produces any text; every tool invocation succeeds. -/
def loopEnv : AgentEnv :=
  { apiKey := "k", geminiTools := .ok ["search"],
    modelResponses := fun _ => .ok ⟨[⟨"search", "q=openrtb"⟩], ""⟩,
    mcpResults := fun _ => .ok ⟨"doc text", some false⟩ }

/-- Claim C2, counterexample: with a model that requests tool calls on
every turn, the run does reach the maximum cycle count, but the result
refutes the claim "returns a non-empty fallback answer together with
success=false": the code returns the last response's text (here empty)
with `success = true`. -/
theorem c2_cap_fallback_counterexample :
    ((generateAnswerAgent loopEnv "q").2).cycles = MAX_ITERATIONS ∧
    ¬ (((generateAnswerAgent loopEnv "q").1.answer ≠ "") ∧
       (generateAnswerAgent loopEnv "q").1.success = false) := by
  decide

/-- Claim C2 as amended: for a model that requests another batch of
tool calls on every turn (and a set key, a fetched catalog and no model
exception), `generateAnswerAgent` reaches the configured maximum cycle
count and then returns whatever text the last model response carried —
possibly empty — with `success = true` (no fallback string is
substituted and no failure flag is set). -/
theorem c2_cap_returns_last_text (env : AgentEnv) (f : Nat → ModelResponse) (q : String)
    (hk : env.apiKey ≠ "") (hg : ∃ ts, env.geminiTools = .ok ts)
    (hm : ∀ k, env.modelResponses k = .ok (f k))
    (hc : ∀ k, 0 < (f k).functionCalls.length) :
    (generateAnswerAgent env q).1 =
      { answer := (f MAX_ITERATIONS).text, success := true } ∧
    ((generateAnswerAgent env q).2).cycles = MAX_ITERATIONS := by
  obtain ⟨ts, hts⟩ := hg
  have hrun := generateAnswerAgent_run env q (f 0) ts hk hts (hm 0)
  have h := agentLoop_always_calls env f hm hc MAX_ITERATIONS 0
    { emptyStats with catalogFetches := 1, modelSends := 1 } rfl
  rcases hl : agentLoop env MAX_ITERATIONS (f 0)
      { emptyStats with catalogFetches := 1, modelSends := 1 } with ⟨a, st⟩
  rw [hl] at h hrun
  have ha : a = some ((f MAX_ITERATIONS).text) := by simpa using h.1
  have hcy : st.cycles = MAX_ITERATIONS := by simpa [emptyStats] using h.2
  rw [ha] at hrun
  rw [hrun]
  exact ⟨rfl, hcy⟩

theorem c2_cap_returns_last_text_witness :
    (generateAnswerAgent loopEnv "q").1 = { answer := "", success := true } ∧
    ((generateAnswerAgent loopEnv "q").2).cycles = MAX_ITERATIONS :=
  c2_cap_returns_last_text loopEnv (fun _ => ⟨[⟨"search", "q=openrtb"⟩], ""⟩) "q"
    (by decide) ⟨["search"], rfl⟩ (fun _ => rfl) (fun _ => by simp)

/-! ## Claim C8 — catalog caching -/

def catalogEnv : McpEnv :=
  { connectResult := fun _ => .ok (),
    listToolsResult := fun k =>
      if k = 0 then .ok [⟨"alpha", some "first tool"⟩] else .ok [⟨"beta", none⟩],
    callToolResult := fun _ => .ok ⟨[(true, "doc")], some false⟩,
    stringifyContent := fun _ => "serialized" }

def catalogRun1 : Except String (List FunctionDeclaration) × McpState :=
  getGeminiTools catalogEnv initialMcpState

def catalogRun2 : Except String (List FunctionDeclaration) × McpState :=
  getGeminiTools catalogEnv catalogRun1.2

/-- Claim C8, counterexample: after a successful first fetch, a second
`getGeminiTools` call does not return the cached sequence: it performs
a second `listTools` fetch (the fetch counter reaches 2) and returns
whatever that fresh fetch yields — here a different catalog. -/
theorem c8_catalog_cache_counterexample :
    catalogRun1.1 = .ok [⟨"alpha", "first tool"⟩] ∧
    catalogRun2.1 = .ok [⟨"beta", ""⟩] ∧
    catalogRun2.2.listToolsCount = 2 :=
  ⟨rfl, rfl, rfl⟩

/-- Claim C8 as amended: only the MCP client connection is cached for
the process lifetime (`connectCount` does not grow once a client
exists); the tool catalog itself is re-fetched from the external
search capability on every `getGeminiTools` call, whose result is the
mapping of the freshly fetched tools. -/
theorem c8_catalog_refetched_every_call (env : McpEnv) (st : McpState)
    (hc : st.client = some ()) :
    ((getGeminiTools env st).2).listToolsCount = st.listToolsCount + 1 ∧
    ((getGeminiTools env st).2).connectCount = st.connectCount ∧
    (∀ tools, env.listToolsResult st.listToolsCount = .ok tools →
      (getGeminiTools env st).1 = .ok (tools.map fun t => ⟨t.name, t.description.getD ""⟩)) := by
  unfold getGeminiTools getClient
  rw [hc]
  cases hl : env.listToolsResult st.listToolsCount <;> simp [hl]

theorem c8_catalog_refetched_every_call_witness :
    ((getGeminiTools catalogEnv catalogRun1.2).2).listToolsCount =
      catalogRun1.2.listToolsCount + 1 ∧
    ((getGeminiTools catalogEnv catalogRun1.2).2).connectCount =
      catalogRun1.2.connectCount :=
  ⟨(c8_catalog_refetched_every_call catalogEnv catalogRun1.2 rfl).1,
   (c8_catalog_refetched_every_call catalogEnv catalogRun1.2 rfl).2.1⟩

/-! ## Claim C9 — transport failures and retries -/

/-- A run whose first model turn requests one tool call; the first MCP
invocation of the run throws a transport error, while a second
invocation — the retry the claim predicts — would have succeeded. -/
def dropEnv : AgentEnv :=
  { apiKey := "k", geminiTools := .ok ["search"],
    modelResponses := fun k =>
      if k = 0 then .ok ⟨[⟨"search", "q=vast"⟩], ""⟩ else .ok ⟨[], "done"⟩,
    mcpResults := fun k =>
      if k = 0 then .error "connection dropped" else .ok ⟨"doc", none⟩ }

/-- Claim C9, counterexample: the transport failure is not retried:
although a second invocation would have succeeded (`mcpResults 1` is a
success), the run makes exactly one MCP invocation and the batch entry
forwarded to the model is the structured error of the single failed
attempt. -/
theorem c9_retry_counterexample :
    (generateAnswerAgent dropEnv "q").2.mcpCalls = 1 ∧
    (generateAnswerAgent dropEnv "q").2.batches =
      [⟨[⟨"search", "q=vast"⟩], 0, [.err "search" "connection dropped"]⟩] ∧
    dropEnv.mcpResults 1 = .ok ⟨"doc", none⟩ ∧
    (generateAnswerAgent dropEnv "q").1 = ⟨"done", true⟩ :=
  ⟨rfl, rfl, rfl, rfl⟩

/-- Claim C9 as amended: a transport-level failure during a tool
invocation is not retried: `callMcpTool` performs exactly one
underlying `callTool` network invocation whether it fails or not, and
in the batch each requested call likewise consumes exactly one
invocation, the failing call surfacing as a structured error entry
while every other call of the batch still produces its entry (the
batch is never truncated). -/
theorem c9_no_retry_single_attempt (env : McpEnv) (st : McpState) (n a : String)
    (m : Nat → Except String ToolCallResult) (k : Nat) (calls : List FunctionCall)
    (hc : st.client = some ()) :
    ((callMcpTool env st n a).2).callToolCount = st.callToolCount + 1 ∧
    (execTools m k calls).2 = k + calls.length ∧
    ((execTools m k calls).1).length = calls.length ∧
    ((execTools m k calls).1).map FunctionResponsePart.isErr =
      (List.range calls.length).map (fun i => exceptFailed (m (k + i))) := by
  refine ⟨?_, execTools_next m calls k, execTools_length m calls k,
    execTools_map_isErr m calls k⟩
  unfold callMcpTool getClient
  rw [hc]
  cases hct : env.callToolResult st.callToolCount <;> simp [hct]

def connectedState : McpState :=
  { client := some (), connectCount := 1, listToolsCount := 0, callToolCount := 0 }

theorem c9_no_retry_single_attempt_witness :
    ((callMcpTool catalogEnv connectedState "search" "q").2).callToolCount =
      connectedState.callToolCount + 1 ∧
    (execTools dropEnv.mcpResults 0 [⟨"search", "q=vast"⟩]).2 =
      0 + [(⟨"search", "q=vast"⟩ : FunctionCall)].length :=
  ⟨(c9_no_retry_single_attempt catalogEnv connectedState "search" "q"
      dropEnv.mcpResults 0 [⟨"search", "q=vast"⟩] rfl).1,
   (c9_no_retry_single_attempt catalogEnv connectedState "search" "q"
      dropEnv.mcpResults 0 [⟨"search", "q=vast"⟩] rfl).2.1⟩
